import Mathlib

/- Shallow embedding of src/main.py: the Bagy → Melhor Envio order-synchronization
service (webhook orchestrator, SQLite order store, retry wrapper, shipment-request
builder, delivery-tracking reconciliation worker).

Conventions of the embedding:
- Python `None`-able values are `Option _`; a JSON field absent from a payload is `none`.
- Python floats are modelled as exact rationals `ℚ` (the arithmetic in the source is
  plain sums, products, `max` and `int()` truncation).
- Timestamps (`CURRENT_TIMESTAMP`) are abstract `Nat` instants supplied per event.
- Remote HTTP calls are modelled by oracle arguments describing the remote outcome;
  the functions below compute exactly what the Python code does with that outcome.
-/

set_option maxHeartbeats 1000000

namespace MEBagy

/-! ## Python-style helpers -/

/-- Truthiness of an optional string, as Python uses it (`if not order_id`,
`if me_order_id and ...`): `None` and the empty string are falsy. -/
def pyTruthy (s : Option String) : Bool :=
  match s with
  | none => false
  | some t => !t.isEmpty

/-- Python string `or`: returns the first operand unless it is empty. -/
def pyOrStr (a b : String) : String :=
  if a.isEmpty then b else a

/-- Python `max(list, default=d)`: the default is used only when the list is empty. -/
def pyMax (l : List ℚ) (d : ℚ) : ℚ :=
  match l with
  | [] => d
  | x :: xs => xs.foldl max x

/-- Python `int()` truncation of a rational toward zero. -/
def pyTrunc (q : ℚ) : ℤ :=
  Int.tdiv q.num (q.den : ℤ)

/-! ## main.py lines 64-104: document / zipcode cleaning and CPF validation -/

/-- main.py `clean_document`: strip every non-digit character (`re.sub` with
pattern class of non-digits). -/
def clean_document (s : String) : String :=
  String.mk (s.data.filter Char.isDigit)

/-- main.py `clean_zipcode`: identical digit filter applied to postal codes. -/
def clean_zipcode (s : String) : String :=
  String.mk (s.data.filter Char.isDigit)

/-- Numeric value of a digit character (`int(cpf[i])`). -/
def digitVal (c : Char) : Nat :=
  c.toNat - 48

/-- Digit values of the cleaned document string.  The cleaned string contains
only digit characters, on which character equality coincides with value
equality, so the validation below may work on the values. -/
def cpfDigits (s : String) : List Nat :=
  (clean_document s).data.map digitVal

/-- The Python check `cpf == cpf[0] * 11`: every digit equals the first. -/
def allSameDigits : List Nat → Bool
  | [] => true
  | d :: ds => ds.all (fun x => x == d)

/-- Check-digit computation shared by both verifier digits of main.py
`validate_cpf`: `dig = 11 - (s % 11)`, with a result of 10 or 11 mapped to 0. -/
def checkDigitFrom (s : Nat) : Nat :=
  if 10 ≤ 11 - s % 11 then 0 else 11 - s % 11

/-- Core of main.py `validate_cpf` on the digit values of the cleaned string:
exactly 11 digits, not all identical, and both modulus-11 check digits match. -/
def validateDigits : List Nat → Bool
  | [d0, d1, d2, d3, d4, d5, d6, d7, d8, d9, d10] =>
    if allSameDigits [d0, d1, d2, d3, d4, d5, d6, d7, d8, d9, d10] then false
    else
      let sum1 := d0 * 10 + d1 * 9 + d2 * 8 + d3 * 7 + d4 * 6 + d5 * 5 + d6 * 4 + d7 * 3 + d8 * 2
      if checkDigitFrom sum1 ≠ d9 then false
      else
        let sum2 := d0 * 11 + d1 * 10 + d2 * 9 + d3 * 8 + d4 * 7 + d5 * 6 + d6 * 5 + d7 * 4 +
          d8 * 3 + d9 * 2
        decide (checkDigitFrom sum2 = d10)
  | _ => false

/-- main.py `validate_cpf`: clean the input, then validate the 11 digits. -/
def validate_cpf (s : String) : Bool :=
  validateDigits (cpfDigits s)

/-! ## main.py lines 106-196: the SQLite order store -/

/-- main.py `MAX_RETRIES` default (environment override out of scope). -/
def MAX_RETRIES : Nat := 3

/-- One row of the `orders` table (minus the autoincrement id and `created_at`,
which no claim touches). -/
structure OrderRecord where
  me_order_id : Option String
  tracking_code : Option String
  status : String
  retry_count : Nat
  last_error : Option String
  delivered_at : Option Nat
  updated_at : Nat
deriving Repr, DecidableEq

/-- The order store: at most one record per `bagy_order_id` (UNIQUE column). -/
def Store : Type := String → Option OrderRecord

/-- The empty store (freshly initialized database). -/
def emptyStore : Store := fun _ => none

/-- main.py `db_save`: read the existing row's `retry_count`, bump it when the
write carries an error — the Python `(1 if error else 0)` tests the error
truthily, so `None` and the empty string both skip the increment — then upsert.
On conflict the SQL merges with `COALESCE(new, old)` for `melhorenvio_order_id`
and `tracking_code`, overwrites `status`, `retry_count` and `last_error` with
the new values (note: `last_error` is NOT coalesced — a write with `error=None`
stores NULL), and sets `delivered_at` to the current timestamp exactly when the
new status is `'delivered'`.  The INSERT branch does not list `delivered_at`,
so a freshly inserted row always has `delivered_at` NULL. -/
def db_save (store : Store) (now : Nat) (order_id : String)
    (me_order_id tracking : Option String) (status : String) (error : Option String) : Store :=
  let existing := store order_id
  let retry_count :=
    (match existing with
     | some r => r.retry_count
     | none => 0) + (if pyTruthy error then 1 else 0)
  let newRec : OrderRecord :=
    match existing with
    | none =>
      { me_order_id := me_order_id
        tracking_code := tracking
        status := status
        retry_count := retry_count
        last_error := error
        delivered_at := none
        updated_at := now }
    | some r =>
      { me_order_id := me_order_id.orElse (fun _ => r.me_order_id)
        tracking_code := tracking.orElse (fun _ => r.tracking_code)
        status := status
        retry_count := retry_count
        last_error := error
        delivered_at := if status = "delivered" then some now else r.delivered_at
        updated_at := now }
  fun oid => if oid = order_id then some newRec else store oid

/-- main.py `db_pending` WHERE clause: rows with status `created` or `shipped`,
a non-NULL tracking code different from the sentinel, and `retry_count`
below `MAX_RETRIES * 2`. -/
def pendingSelect (r : OrderRecord) : Bool :=
  decide ((r.status = "created" ∨ r.status = "shipped") ∧
    r.tracking_code ≠ none ∧
    r.tracking_code ≠ some "SEM-RASTREIO" ∧
    r.retry_count < MAX_RETRIES * 2)

/-! ## main.py lines 199-217: the retry decorator -/

/-- Observable events of one `retry_on_failure` run: an invocation of the wrapped
function, the fixed inter-attempt sleep, the per-attempt warning log, and the
final error log that carries the number of attempts exhausted. -/
inductive RetryEvent where
  | invoke
  | sleepDelay (d : Nat)
  | warnLog (attempt maxAttempts : Nat)
  | errorLog (maxAttempts : Nat)
deriving Repr, DecidableEq

/-- The decorator's loop, `for attempt in range(1, max_attempts + 1)`.  The wrapped
call is an oracle `f` giving each attempt's outcome.  `rem` counts the loop
iterations left (`maxA + 1 - attempt` at every call site); if the loop exhausts
all attempts the last exception is re-raised after the error log. -/
def retryAux (f : Nat → Except String α) (delay maxA : Nat) :
    Nat → Nat → List RetryEvent × Except String α
  | _, 0 => ([], Except.error "retry loop never ran")
  | attempt, rem + 1 =>
    match f attempt with
    | Except.ok a => ([RetryEvent.invoke], Except.ok a)
    | Except.error e =>
      if attempt < maxA then
        let rest := retryAux f delay maxA (attempt + 1) rem
        (RetryEvent.invoke :: RetryEvent.warnLog attempt maxA :: RetryEvent.sleepDelay delay ::
          rest.1, rest.2)
      else
        ([RetryEvent.invoke, RetryEvent.errorLog maxA], Except.error e)

/-- main.py `retry_on_failure(max_attempts, delay)` applied to a wrapped call
whose attempt outcomes are given by `f` (attempts are numbered from 1). -/
def retry_on_failure (maxA delay : Nat) (f : Nat → Except String α) :
    List RetryEvent × Except String α :=
  retryAux f delay maxA 1 maxA

/-! ## main.py lines 277-423: order normalization and the shipment request builder -/

/-- One element of the order's `items` list; absent keys are `none` and take the
Python `dict.get` defaults at use sites. -/
structure RawItem where
  weight : Option ℚ
  length : Option ℚ
  height : Option ℚ
  width : Option ℚ
  quantity : Option ℤ
  price : Option ℚ
deriving Repr, DecidableEq

/-- The delivery address block.  `none` at the `Pedido` level stands for an
absent or empty (falsy) dict. -/
structure RawAddress where
  street : Option String
  number : Option String
  complement : Option String
  district : Option String
  neighborhood : Option String
  city : Option String
  state : Option String
  zipcode : Option String
deriving Repr, DecidableEq

/-- The customer block of the order payload. -/
structure RawCustomer where
  name : Option String
  email : Option String
  phone : Option String
  document : Option String
deriving Repr, DecidableEq

/-- The normalized order payload (`pedido` after `normalize_order_data`): the
fields the sync pipeline reads.  `items` is `[]` when the key is absent
(`pedido.get("items", []) or []`). -/
structure Pedido where
  id : Option String
  code : Option String
  fulfillment_status : Option String
  address : Option RawAddress
  shipping_address : Option RawAddress
  customer : Option RawCustomer
  items : List RawItem
  total : Option ℚ
deriving Repr, DecidableEq

/-- main.py lines 309-313: the synthesized default item used when the order has
no line items. -/
def defaultItem : RawItem :=
  { weight := some (3 / 10), length := some 20, height := some 10, width := some 15,
    quantity := some 1, price := none }

/-- The items actually used by the builder: the order's items, or exactly one
default item when the list is empty. -/
def effective_items (p : Pedido) : List RawItem :=
  if p.items.isEmpty then [defaultItem] else p.items

/-- One item's contribution to the weight: `float(it.get("weight", 0.3)) *
int(it.get("quantity", 1))`. -/
def item_weight (it : RawItem) : ℚ :=
  it.weight.getD (3 / 10) * ((it.quantity.getD 1 : ℤ) : ℚ)

/-- main.py lines 316-317: total weight over all items, floored at 0.3 kg. -/
def total_weight (p : Pedido) : ℚ :=
  max (((effective_items p).map item_weight).sum) (3 / 10)

/-- main.py line 321: largest item length, default 20. -/
def max_length (p : Pedido) : ℚ :=
  pyMax ((effective_items p).map (fun it => it.length.getD 20)) 20

/-- main.py line 322: largest item height, default 10. -/
def max_height (p : Pedido) : ℚ :=
  pyMax ((effective_items p).map (fun it => it.height.getD 10)) 10

/-- main.py line 323: largest item width, default 15. -/
def max_width (p : Pedido) : ℚ :=
  pyMax ((effective_items p).map (fun it => it.width.getD 15)) 15

/-- main.py lines 327-330: declared value — the order total if nonzero, else the
summed item prices, floored at 10.0. -/
def invoice_value (p : Pedido) : ℚ :=
  let t := p.total.getD 0
  let s := ((effective_items p).map
    (fun it => it.price.getD 0 * ((it.quantity.getD 1 : ℤ) : ℚ))).sum
  max (if t = 0 then s else t) 10

/-- The carrier shipment request assembled by `send_to_melhorenvio` (recipient
block, synthetic product line, volume, options).  The sender block is fixed
environment configuration and carries no order data, so it is omitted. -/
structure MEPayload where
  to_name : String
  to_phone : String
  to_email : String
  to_document : String
  to_address : String
  to_complement : String
  to_number : String
  to_district : String
  to_city : String
  to_state : String
  to_postal : String
  product_name : String
  product_quantity : Nat
  product_value : ℚ
  vol_height : ℤ
  vol_width : ℤ
  vol_length : ℤ
  vol_weight : ℚ
  insurance_value : ℚ
  receipt : Bool
  own_hand : Bool
  collect : Bool
deriving Repr, DecidableEq

/-- main.py lines 288-395: the pure payload-building part of
`send_to_melhorenvio` (everything before the HTTP POST).  Raises `ValueError`
when the address or customer block is missing (Python: falsy). -/
def build_payload (p : Pedido) : Except String MEPayload :=
  let order_id := p.id.getD "UNKNOWN"
  match p.address.orElse (fun _ => p.shipping_address) with
  | none => Except.error "Endereço de entrega não encontrado no pedido"
  | some addr =>
    match p.customer with
    | none => Except.error "Dados do cliente não encontrados no pedido"
    | some cust =>
      let doc0 := clean_document (cust.document.getD "")
      let customer_doc := if ¬doc0.isEmpty ∧ validate_cpf doc0 = false then "" else doc0
      Except.ok
        { to_name := cust.name.getD "Cliente"
          to_phone := cust.phone.getD ""
          to_email := cust.email.getD ""
          to_document := customer_doc
          to_address := addr.street.getD ""
          to_complement := addr.complement.getD ""
          to_number := addr.number.getD "S/N"
          to_district := addr.district.getD (addr.neighborhood.getD "")
          to_city := addr.city.getD ""
          to_state := addr.state.getD ""
          to_postal := clean_zipcode (addr.zipcode.getD "")
          product_name := "Pedido #" ++ order_id
          product_quantity := 1
          product_value := invoice_value p
          vol_height := pyTrunc (max_height p)
          vol_width := pyTrunc (max_width p)
          vol_length := pyTrunc (max_length p)
          vol_weight := total_weight p
          insurance_value := invoice_value p
          receipt := false
          own_hand := false
          collect := false }

/-- The carrier's create-shipment response body fields the code reads. -/
structure CarrierResp where
  id : Option String
  tracking : Option String
  protocol : Option String
deriving Repr, DecidableEq

/-- Outcome of one remote HTTP call, as seen by the code after the retry
wrapper: either a failure message (non-success status / transport error,
exhausting the retries) or a response value. -/
inductive HttpResult (α : Type) where
  | fail (msg : String)
  | ok (v : α)
deriving Repr, DecidableEq

/-- main.py line 417: `data.get("tracking", "") or data.get("protocol", "") or
"SEM-RASTREIO"`. -/
def extract_tracking (tracking protocol : Option String) : String :=
  pyOrStr (pyOrStr (tracking.getD "") (protocol.getD "")) "SEM-RASTREIO"

/-- main.py `send_to_melhorenvio`: build the payload, perform the carrier call
(outcome given by the oracle `resp`), and extract `(me_order_id, tracking)`
from the response. -/
def send_to_melhorenvio (p : Pedido) (resp : HttpResult CarrierResp) :
    Except String (String × String) :=
  match build_payload p with
  | Except.error e => Except.error e
  | Except.ok _ =>
    match resp with
    | HttpResult.fail msg => Except.error msg
    | HttpResult.ok data =>
      Except.ok (data.id.getD "", extract_tracking data.tracking data.protocol)

/-! ## main.py lines 425-463: delivery-status query -/

/-- Outcome of the tracking HTTP call inside `melhorenvio_check_delivered`:
a raised transport exception, a non-success HTTP status, an unparseable body
(`r.json()` raising), or the parsed status entries (the optional `status`
field of each returned order object; a non-list body is wrapped into a
singleton list by the code). -/
inductive TrackOutcome where
  | transportError (msg : String)
  | httpError (code : Nat)
  | parseError
  | parsed (entries : List (Option String))
deriving Repr, DecidableEq

/-- Character-list `startsWith`. -/
def charsStartWith : List Char → List Char → Bool
  | _, [] => true
  | [], _ :: _ => false
  | a :: as, b :: bs => a == b && charsStartWith as bs

/-- Substring test on character lists: does `hay` contain `needle`? -/
def charsContain : List Char → List Char → Bool
  | [], needle => needle.isEmpty
  | h :: t, needle => charsStartWith (h :: t) needle || charsContain t needle

/-- Python `x in status` substring test on strings. -/
def strContains (hay needle : String) : Bool :=
  charsContain hay.data needle.data

/-- Python `str.lower()`. -/
def strLower (s : String) : String :=
  String.mk (s.data.map Char.toLower)

/-- main.py lines 445-452: the per-entry delivered test on the lowercased
status text. -/
def isDeliveredStatus (s : String) : Bool :=
  let status := strLower s
  strContains status "entregue" || strContains status "delivered" ||
    strContains status "finalizado" || status == "delivered"

/-- main.py `melhorenvio_check_delivered`: false on every transport or protocol
error (the whole body is inside `try/except` returning False), true exactly
when some returned entry's status text passes the delivered test.  Total by
construction: it never raises to its caller. -/
def melhorenvio_check_delivered (o : TrackOutcome) : Bool :=
  match o with
  | TrackOutcome.transportError _ => false
  | TrackOutcome.httpError _ => false
  | TrackOutcome.parseError => false
  | TrackOutcome.parsed entries =>
    entries.any (fun e => isDeliveredStatus (e.getD ""))

/-! ## main.py lines 623-711: the webhook orchestrator -/

/-- The kinds of outbound remote calls the orchestrator can make while
processing one order event (retry multiplicity abstracted away). -/
inductive RemoteCall where
  | carrierCreate
  | storefrontShipped
  | storefrontDelivered
deriving Repr, DecidableEq

/-- An HTTP response returned by the handler (status code and the message
identifying the branch taken). -/
structure HttpResponse where
  code : Nat
  msg : String
deriving Repr, DecidableEq

/-- main.py lines 666-699: the processing branch of `webhook_handler` — carrier
create (via `send_to_melhorenvio`), storefront mark-shipped, success store
write; any exception is caught and recorded by the error-path store write
`db_save(order_id, status="error", error=msg)`, which passes neither the
carrier shipment id nor the tracking code. -/
def processOrder (store : Store) (oid : String) (p : Pedido)
    (carrier : HttpResult CarrierResp) (storefront : HttpResult Unit) (now : Nat) :
    Store × HttpResponse × List RemoteCall :=
  match build_payload p with
  | Except.error msg =>
    (db_save store now oid none none "error" (some msg), ⟨500, msg⟩, [])
  | Except.ok _ =>
    match carrier with
    | HttpResult.fail msg =>
      (db_save store now oid none none "error" (some msg), ⟨500, msg⟩, [RemoteCall.carrierCreate])
    | HttpResult.ok data =>
      let me := data.id.getD ""
      let tr := extract_tracking data.tracking data.protocol
      match storefront with
      | HttpResult.fail msg =>
        (db_save store now oid none none "error" (some msg), ⟨500, msg⟩,
          [RemoteCall.carrierCreate, RemoteCall.storefrontShipped])
      | HttpResult.ok _ =>
        (db_save store now oid (some me) (some tr) "shipped" none,
          ⟨200, "Pedido enviado ao Melhor Envio e marcado como enviado na Bagy"⟩,
          [RemoteCall.carrierCreate, RemoteCall.storefrontShipped])

/-- main.py `webhook_handler` (lines 623-699): require an order id, filter on
`fulfillment_status == "invoiced"`, apply the idempotency guard on stored
status `shipped`/`delivered`, then process. -/
def webhook_handler (store : Store) (p : Pedido)
    (carrier : HttpResult CarrierResp) (storefront : HttpResult Unit) (now : Nat) :
    Store × HttpResponse × List RemoteCall :=
  if ¬pyTruthy p.id then
    (store, ⟨400, "ID do pedido não encontrado"⟩, [])
  else
    let oid := p.id.getD ""
    if p.fulfillment_status.getD "" ≠ "invoiced" then
      (store, ⟨200, "Pedido ignorado - apenas pedidos FATURADOS são processados"⟩, [])
    else
      match store oid with
      | some r =>
        if r.status = "shipped" ∨ r.status = "delivered" then
          (store, ⟨200, "Pedido já processado"⟩, [])
        else
          processOrder store oid p carrier storefront now
      | none => processOrder store oid p carrier storefront now

/-! ## main.py lines 499-529: the reconciliation worker -/

/-- Environment outcome of one iteration of the worker's per-order `try` block:
the delivery check (and subsequent storefront call) succeeded with a delivered
verdict, it reported not-yet-delivered, or some step raised an exception with
the given message. -/
inductive CheckOutcome where
  | delivered
  | notDelivered
  | raised (msg : String)
deriving Repr, DecidableEq

/-- One iteration of the worker loop body for the row
`(bagy_order_id, me_order_id, tracking_code)`: when `me_order_id` is truthy and
the check reports delivered, write status `delivered`; on an exception write
`db_save(bagy_order_id, me_order_id, tracking_code, error=error_msg)` — whose
`status` parameter defaults to `"created"`; otherwise no write. -/
def workerScanStep (store : Store) (now : Nat) (oid : String)
    (me tr : Option String) (out : CheckOutcome) : Store :=
  match out with
  | CheckOutcome.delivered =>
    if pyTruthy me then db_save store now oid me tr "delivered" none else store
  | CheckOutcome.notDelivered => store
  | CheckOutcome.raised msg => db_save store now oid me tr "created" (some msg)

/-- One scan of the worker over a snapshot of pending rows (each row paired with
its check outcome and timestamp).  The per-order `try/except` means one row's
failure never aborts the rest of the scan: the fold always processes every row. -/
def workerScan (store : Store)
    (rows : List (String × Option String × Option String × CheckOutcome × Nat)) : Store :=
  rows.foldl (fun s row => workerScanStep s row.2.2.2.2 row.1 row.2.1 row.2.2.1 row.2.2.2.1) store

/-! ## The concurrent system model (webhook handlers + reconciliation daemon)

The webhook handler and the tracking worker run in concurrent threads and share
only the SQLite store, whose statements are the atomic units.  A webhook
delivery is therefore modelled as TWO events: the guard SELECT (main.py lines
655-664), which on passing leaves the handler in flight (a *session*) while it
performs its remote calls, and the handler's final `db_save` (line 676 on
success, line 693 on the except path).  Worker writes may interleave between
the two.  A worker iteration's own row data comes from the `db_pending`
snapshot taken at scan start, which can be stale by the time it writes; the
model therefore requires only what is stable across interleavings — the row
exists (rows are never deleted) — and leaves the snapshot values and check
outcome as free parameters, an over-approximation of the thread interleavings
of the source. -/

/-- main.py lines 630-664 up to the guard SELECT: an order id must be present
and truthy, `fulfillment_status` must be `"invoiced"`, and the stored status
must not be `shipped` or `delivered` (a missing row passes). -/
def guardPasses (store : Store) (p : Pedido) : Bool :=
  pyTruthy p.id && (p.fulfillment_status.getD "" == "invoiced") &&
    (match store (p.id.getD "") with
     | none => true
     | some r => !(r.status == "shipped" || r.status == "delivered"))

/-- The shared state: the order store plus the ids of webhook handlers that
have passed the guard and not yet performed their final write. -/
structure SysState where
  store : Store
  sessions : List String

/-- The initial state: empty database, no handler in flight. -/
def initState : SysState := ⟨emptyStore, []⟩

/-- Atomic store-level events of the running system. -/
inductive SysEvent where
  | webhookGuard (p : Pedido) (now : Nat)
  | webhookWrite (oid : String) (res : Except String (String × String)) (now : Nat)
  | workerCheck (oid : String) (me tr : Option String) (out : CheckOutcome) (now : Nat)

/-- Effect of one event.  `webhookGuard` opens a session when the guard passes
(no store write).  `webhookWrite` is the final write of an in-flight handler:
on pipeline success (`res = ok (me, tr)`, the result of `send_to_melhorenvio`)
the `shipped` write with the carrier ids; on any pipeline exception the error
write passing neither.  `workerCheck` is one worker-loop iteration with its
snapshot row values, enabled whenever the row exists. -/
def stepSys (s : SysState) : SysEvent → SysState
  | SysEvent.webhookGuard p _ =>
    if guardPasses s.store p then ⟨s.store, (p.id.getD "") :: s.sessions⟩ else s
  | SysEvent.webhookWrite oid res now =>
    if oid ∈ s.sessions then
      match res with
      | Except.ok (me, tr) =>
        ⟨db_save s.store now oid (some me) (some tr) "shipped" none, s.sessions.erase oid⟩
      | Except.error msg =>
        ⟨db_save s.store now oid none none "error" (some msg), s.sessions.erase oid⟩
    else s
  | SysEvent.workerCheck oid me tr out now =>
    match s.store oid with
    | none => s
    | some _ => ⟨workerScanStep s.store now oid me tr out, s.sessions⟩

/-- States reachable from the empty database through interleaved webhook
guard/write events and worker iterations. -/
inductive ReachableSys : SysState → Prop
  | init : ReachableSys initState
  | step {s : SysState} (e : SysEvent) : ReachableSys s → ReachableSys (stepSys s e)

/-! ## Shared lemmas about `db_save` -/

/-- Reading back the row just written by `db_save` when a row for the id already
existed (the ON CONFLICT UPDATE branch). -/
theorem db_save_get_existing (store : Store) (now : Nat) (oid : String)
    (me tr : Option String) (st : String) (err : Option String) (r : OrderRecord)
    (h : store oid = some r) :
    (db_save store now oid me tr st err) oid = some
      { me_order_id := me.orElse (fun _ => r.me_order_id)
        tracking_code := tr.orElse (fun _ => r.tracking_code)
        status := st
        retry_count := r.retry_count + (if pyTruthy err then 1 else 0)
        last_error := err
        delivered_at := if st = "delivered" then some now else r.delivered_at
        updated_at := now } := by
  simp [db_save, h]

/-- Reading back the row just written by `db_save` when no row existed (the
INSERT branch; note `delivered_at` is not in the INSERT column list). -/
theorem db_save_get_fresh (store : Store) (now : Nat) (oid : String)
    (me tr : Option String) (st : String) (err : Option String)
    (h : store oid = none) :
    (db_save store now oid me tr st err) oid = some
      { me_order_id := me
        tracking_code := tr
        status := st
        retry_count := if pyTruthy err then 1 else 0
        last_error := err
        delivered_at := none
        updated_at := now } := by
  simp [db_save, h]

/-- `db_save` leaves every other order's row untouched. -/
theorem db_save_get_other (store : Store) (now : Nat) (oid : String)
    (me tr : Option String) (st : String) (err : Option String) (oid' : String)
    (h : oid' ≠ oid) :
    (db_save store now oid me tr st err) oid' = store oid' := by
  simp [db_save, h]

/-! ## C1 — reconciliation error path -/

/-- A shipped order row, as produced by a successful sync. -/
def c1Rec : OrderRecord :=
  { me_order_id := some "ME1", tracking_code := some "TR1", status := "shipped",
    retry_count := 0, last_error := none, delivered_at := none, updated_at := 3 }

/-- A store holding the single shipped order above. -/
def c1Store : Store := fun oid =>
  if oid = "B1" then some c1Rec else none

/-- C1 counterexample: a reconciliation-scan exception on an order whose stored
status is `shipped` does NOT leave the status unchanged — the error-path write
`db_save(..., error=msg)` takes `db_save`'s default `status="created"` and
overwrites the stored `shipped` with `created`. -/
theorem worker_error_write_changes_status :
    (c1Store "B1").map OrderRecord.status = some "shipped" ∧
    ((workerScanStep c1Store 7 "B1" (some "ME1") (some "TR1")
        (CheckOutcome.raised "timeout")) "B1").map OrderRecord.status = some "created" ∧
    ((workerScanStep c1Store 7 "B1" (some "ME1") (some "TR1")
        (CheckOutcome.raised "timeout")) "B1").map OrderRecord.status ≠
      (c1Store "B1").map OrderRecord.status := by
  decide

/-- C1 (amended): on an exception during a reconciliation check the store write
records the error message and — when the exception message is non-empty, since
`db_save` tests the error truthily — an incremented `retry_count`, but writes
the status as `"created"` (the `db_save` default), so the stored status is
preserved only when it already was `"created"`; the scan always continues with
the remaining rows. -/
theorem worker_error_write_behavior (store : Store) (now : Nat) (oid : String)
    (me tr : Option String) (msg : String) (r : OrderRecord)
    (rest : List (String × Option String × Option String × CheckOutcome × Nat))
    (h : store oid = some r) :
    (∃ r', (workerScanStep store now oid me tr (CheckOutcome.raised msg)) oid = some r' ∧
      r'.last_error = some msg ∧
      r'.retry_count = r.retry_count + (if msg.isEmpty then 0 else 1) ∧
      r'.status = "created") ∧
    workerScan store ((oid, me, tr, CheckOutcome.raised msg, now) :: rest) =
      workerScan (workerScanStep store now oid me tr (CheckOutcome.raised msg)) rest := by
  have hw := db_save_get_existing store now oid me tr "created" (some msg) r h
  have hcount : (if pyTruthy (some msg) then 1 else 0) = (if msg.isEmpty then 0 else 1) := by
    cases hmsg : msg.isEmpty <;> simp [pyTruthy, hmsg]
  rw [hcount] at hw
  exact ⟨⟨_, hw, rfl, rfl, rfl⟩, rfl⟩

/-- C1 witness: the amended behavior evaluated on a concrete shipped order with
a non-empty exception message. -/
theorem worker_error_write_behavior_witness :
    (∃ r', (workerScanStep c1Store 7 "B1" (some "ME1") (some "TR1")
        (CheckOutcome.raised "timeout")) "B1" = some r' ∧
      r'.last_error = some "timeout" ∧
      r'.retry_count = c1Rec.retry_count + (if ("timeout" : String).isEmpty then 0 else 1) ∧
      r'.status = "created") ∧
    workerScan c1Store [("B1", some "ME1", some "TR1", CheckOutcome.raised "timeout", 7)] =
      workerScan (workerScanStep c1Store 7 "B1" (some "ME1") (some "TR1")
        (CheckOutcome.raised "timeout")) [] :=
  worker_error_write_behavior c1Store 7 "B1" (some "ME1") (some "TR1") "timeout" c1Rec []
    (by decide)

/-! ## C2 — success writes and `last_error` -/

/-- An order row carrying a stale error message. -/
def c2Rec : OrderRecord :=
  { me_order_id := some "ME1", tracking_code := some "TR1", status := "created",
    retry_count := 1, last_error := some "timeout", delivered_at := none, updated_at := 7 }

/-- A store holding the single stale-error order above. -/
def c2Store : Store := fun oid =>
  if oid = "B1" then some c2Rec else none

/-- C2 counterexample: the success write that sets status to `delivered`
(error parameter `None`) does NOT leave the stored `last_error` unchanged —
the upsert sets `last_error = ?` without a COALESCE, so the stale message
`"timeout"` is overwritten with NULL. -/
theorem success_write_clears_last_error_cex :
    (c2Store "B1").map OrderRecord.last_error = some (some "timeout") ∧
    ((db_save c2Store 9 "B1" (some "ME1") (some "TR1") "delivered" none) "B1").map
      OrderRecord.last_error = some none ∧
    ((db_save c2Store 9 "B1" (some "ME1") (some "TR1") "delivered" none) "B1").map
      OrderRecord.last_error ≠ (c2Store "B1").map OrderRecord.last_error := by
  decide

/-- C2 (amended): a store write that carries no error overwrites `last_error`
with NULL — a success write clears the stale error message (so it is not left
visible on a delivered order), while leaving `retry_count` unchanged. -/
theorem success_write_clears_last_error (store : Store) (now : Nat) (oid : String)
    (me tr : Option String) (st : String) (r : OrderRecord)
    (h : store oid = some r) :
    ∃ r', (db_save store now oid me tr st none) oid = some r' ∧
      r'.last_error = none ∧ r'.retry_count = r.retry_count := by
  refine ⟨_, db_save_get_existing store now oid me tr st none r h, rfl, by simp [pyTruthy]⟩

/-- C2 witness: the amended behavior evaluated on the concrete store above. -/
theorem success_write_clears_last_error_witness :
    ∃ r', (db_save c2Store 9 "B1" (some "ME1") (some "TR1") "delivered" none) "B1" = some r' ∧
      r'.last_error = none ∧ r'.retry_count = c2Rec.retry_count :=
  success_write_clears_last_error c2Store 9 "B1" (some "ME1") (some "TR1") "delivered" c2Rec
    (by decide)

/-! ## C10 — error path after a successful carrier call -/

/-- C10: when the carrier create-shipment call succeeded but the storefront
mark-shipped call fails, the error-path store write passes neither the carrier
shipment id nor the tracking code: on an order with no prior record the
resulting row has status `error` with both fields NULL, so the already-created
carrier shipment is not recorded. -/
theorem error_path_omits_carrier_ids (store : Store) (p : Pedido)
    (data : CarrierResp) (msg : String) (now : Nat)
    (htruthy : pyTruthy p.id = true)
    (hinv : p.fulfillment_status = some "invoiced")
    (hfresh : store (p.id.getD "") = none)
    (hbuild : (build_payload p).isOk = true) :
    ∃ r, (webhook_handler store p (HttpResult.ok data) (HttpResult.fail msg) now).1
        (p.id.getD "") = some r ∧
      r.status = "error" ∧ r.me_order_id = none ∧ r.tracking_code = none ∧
      r.last_error = some msg ∧
      (webhook_handler store p (HttpResult.ok data) (HttpResult.fail msg) now).2.2 =
        [RemoteCall.carrierCreate, RemoteCall.storefrontShipped] := by
  cases hb : build_payload p with
  | error e => rw [hb] at hbuild; simp [Except.isOk, Except.toBool] at hbuild
  | ok pay =>
    have hres : webhook_handler store p (HttpResult.ok data) (HttpResult.fail msg) now =
        (db_save store now (p.id.getD "") none none "error" (some msg),
          ⟨500, msg⟩, [RemoteCall.carrierCreate, RemoteCall.storefrontShipped]) := by
      simp [webhook_handler, htruthy, hinv, hfresh, processOrder, hb]
    have hw := db_save_get_fresh store now (p.id.getD "") none none "error" (some msg) hfresh
    rw [hres]
    exact ⟨_, hw, rfl, rfl, rfl, rfl, rfl⟩

/-- A concrete delivery address used by witnesses. -/
def pAddr : RawAddress :=
  { street := some "Avenida Paulista", number := some "1000", complement := some "Apto 45",
    district := some "Bela Vista", neighborhood := none, city := some "São Paulo",
    state := some "SP", zipcode := some "01310-100" }

/-- A concrete customer block used by witnesses. -/
def pCust : RawCustomer :=
  { name := some "Cliente Teste", email := some "teste@example.com",
    phone := some "11999999999", document := some "12345678909" }

/-- A concrete line item (weight 0.5, price 150) used by witnesses. -/
def pItem : RawItem :=
  { weight := some (1 / 2), length := some 20, height := some 10, width := some 15,
    quantity := some 1, price := some 150 }

/-- A concrete invoiced order payload used by several witnesses. -/
def pOrder : Pedido :=
  { id := some "B1", code := some "1001", fulfillment_status := some "invoiced",
    address := some pAddr, shipping_address := none, customer := some pCust,
    items := [pItem], total := some 150 }

/-- C10 witness: the error path evaluated on a concrete fresh order whose
carrier call returned a shipment id and tracking code. -/
theorem error_path_omits_carrier_ids_witness :
    ∃ r, (webhook_handler emptyStore pOrder
        (HttpResult.ok ⟨some "ME1", some "TR1", none⟩) (HttpResult.fail "Erro Bagy") 5).1
        (pOrder.id.getD "") = some r ∧
      r.status = "error" ∧ r.me_order_id = none ∧ r.tracking_code = none ∧
      r.last_error = some "Erro Bagy" ∧
      (webhook_handler emptyStore pOrder
        (HttpResult.ok ⟨some "ME1", some "TR1", none⟩) (HttpResult.fail "Erro Bagy") 5).2.2 =
        [RemoteCall.carrierCreate, RemoteCall.storefrontShipped] :=
  error_path_omits_carrier_ids emptyStore pOrder ⟨some "ME1", some "TR1", none⟩ "Erro Bagy" 5
    (by decide) (by decide) (by decide) (by decide)

/-! ## C4 — the idempotency guard -/

/-- C4: for an invoiced event whose order id has a stored record with status
`shipped` or `delivered`, the orchestrator returns the unchanged store, the
200 "Pedido já processado" response, and performs zero outbound calls; a stored
status of `error` is not blocked by the guard — a duplicate invoiced event is
processed again (carrier and storefront calls are made and the record moves to
`shipped` on success). -/
theorem idempotency_guard_spec :
    (∀ (store : Store) (p : Pedido) (carrier : HttpResult CarrierResp)
      (storefront : HttpResult Unit) (now : Nat) (r : OrderRecord),
      pyTruthy p.id = true → p.fulfillment_status = some "invoiced" →
      store (p.id.getD "") = some r → (r.status = "shipped" ∨ r.status = "delivered") →
      webhook_handler store p carrier storefront now =
        (store, ⟨200, "Pedido já processado"⟩, [])) ∧
    (∀ (store : Store) (p : Pedido) (data : CarrierResp) (now : Nat) (r : OrderRecord),
      pyTruthy p.id = true → p.fulfillment_status = some "invoiced" →
      store (p.id.getD "") = some r → r.status = "error" →
      (build_payload p).isOk = true →
      (webhook_handler store p (HttpResult.ok data) (HttpResult.ok ()) now).2.1 ≠
        ⟨200, "Pedido já processado"⟩ ∧
      (∃ r', (webhook_handler store p (HttpResult.ok data) (HttpResult.ok ()) now).1
          (p.id.getD "") = some r' ∧ r'.status = "shipped") ∧
      (webhook_handler store p (HttpResult.ok data) (HttpResult.ok ()) now).2.2 =
        [RemoteCall.carrierCreate, RemoteCall.storefrontShipped]) := by
  constructor
  · intro store p carrier storefront now r htruthy hinv hrec hstat
    simp [webhook_handler, htruthy, hinv, hrec, hstat]
  · intro store p data now r htruthy hinv hrec hstat hbuild
    cases hb : build_payload p with
    | error e => rw [hb] at hbuild; simp [Except.isOk, Except.toBool] at hbuild
    | ok pay =>
      have hres : webhook_handler store p (HttpResult.ok data) (HttpResult.ok ()) now =
          (db_save store now (p.id.getD "") (some (data.id.getD ""))
            (some (extract_tracking data.tracking data.protocol)) "shipped" none,
            ⟨200, "Pedido enviado ao Melhor Envio e marcado como enviado na Bagy"⟩,
            [RemoteCall.carrierCreate, RemoteCall.storefrontShipped]) := by
        simp [webhook_handler, htruthy, hinv, hrec, hstat, processOrder, hb]
      have hw := db_save_get_existing store now (p.id.getD "") (some (data.id.getD ""))
        (some (extract_tracking data.tracking data.protocol)) "shipped" none r hrec
      rw [hres]
      exact ⟨by simp, ⟨_, hw, rfl⟩, rfl⟩

/-- An order row in `error` status, left by a failed sync attempt. -/
def c4ErrRec : OrderRecord :=
  { me_order_id := none, tracking_code := none, status := "error", retry_count := 1,
    last_error := some "boom", delivered_at := none, updated_at := 2 }

/-- A store holding the single errored order above. -/
def c4ErrStore : Store := fun oid =>
  if oid = "B1" then some c4ErrRec else none

/-- C4 witness: the guard evaluated on a concrete shipped order (duplicate event
is a no-op) and on a concrete errored order (duplicate event is reprocessed). -/
theorem idempotency_guard_spec_witness :
    webhook_handler c1Store pOrder (HttpResult.fail "down") (HttpResult.fail "down") 4 =
      (c1Store, ⟨200, "Pedido já processado"⟩, []) ∧
    ((webhook_handler c4ErrStore pOrder (HttpResult.ok ⟨some "ME2", some "TR2", none⟩)
        (HttpResult.ok ()) 6).2.1 ≠ ⟨200, "Pedido já processado"⟩ ∧
      (∃ r', (webhook_handler c4ErrStore pOrder (HttpResult.ok ⟨some "ME2", some "TR2", none⟩)
          (HttpResult.ok ()) 6).1 (pOrder.id.getD "") = some r' ∧ r'.status = "shipped") ∧
      (webhook_handler c4ErrStore pOrder (HttpResult.ok ⟨some "ME2", some "TR2", none⟩)
        (HttpResult.ok ()) 6).2.2 =
        [RemoteCall.carrierCreate, RemoteCall.storefrontShipped]) :=
  ⟨idempotency_guard_spec.1 c1Store pOrder (HttpResult.fail "down") (HttpResult.fail "down")
      4 c1Rec (by decide) (by decide) (by decide) (Or.inl (by decide)),
    idempotency_guard_spec.2 c4ErrStore pOrder ⟨some "ME2", some "TR2", none⟩ 6 c4ErrRec
      (by decide) (by decide) (by decide) (by decide) (by decide)⟩

/-! ## C7 — the "SEM-RASTREIO" sentinel -/

/-- C7: when the carrier response omits both the tracking and the protocol field
(or both are empty strings), the extracted tracking code is exactly the
sentinel; a successful sync then records the sentinel as the order's tracking
code; and no order whose tracking code is NULL or the sentinel is ever selected
by the reconciliation query. -/
theorem tracking_sentinel_spec :
    (∀ t pr : Option String, (t.getD "").isEmpty = true → (pr.getD "").isEmpty = true →
      extract_tracking t pr = "SEM-RASTREIO") ∧
    (∀ (store : Store) (oid : String) (p : Pedido) (data : CarrierResp) (now : Nat),
      (data.tracking.getD "").isEmpty = true → (data.protocol.getD "").isEmpty = true →
      (build_payload p).isOk = true →
      ((processOrder store oid p (HttpResult.ok data) (HttpResult.ok ()) now).1 oid).map
        OrderRecord.tracking_code = some (some "SEM-RASTREIO")) ∧
    (∀ r : OrderRecord, r.tracking_code = none ∨ r.tracking_code = some "SEM-RASTREIO" →
      pendingSelect r = false) := by
  have hext : ∀ t pr : Option String, (t.getD "").isEmpty = true →
      (pr.getD "").isEmpty = true → extract_tracking t pr = "SEM-RASTREIO" := by
    intro t pr h1 h2
    simp [extract_tracking, pyOrStr, h1, h2]
  refine ⟨hext, ?_, ?_⟩
  · intro store oid p data now h1 h2 hbuild
    cases hb : build_payload p with
    | error e => rw [hb] at hbuild; simp [Except.isOk, Except.toBool] at hbuild
    | ok pay =>
      have hres : (processOrder store oid p (HttpResult.ok data) (HttpResult.ok ()) now).1 =
          db_save store now oid (some (data.id.getD ""))
            (some (extract_tracking data.tracking data.protocol)) "shipped" none := by
        simp [processOrder, hb]
      rw [hres, hext data.tracking data.protocol h1 h2]
      cases hrec : store oid with
      | none =>
        rw [db_save_get_fresh store now oid _ _ "shipped" none hrec]; rfl
      | some r =>
        rw [db_save_get_existing store now oid _ _ "shipped" none r hrec]; rfl
  · intro r h
    rcases h with h | h <;> simp [pendingSelect, h]

/-- An order row whose tracking code is the sentinel. -/
def c7Rec : OrderRecord :=
  { me_order_id := some "ME1", tracking_code := some "SEM-RASTREIO", status := "shipped",
    retry_count := 0, last_error := none, delivered_at := none, updated_at := 3 }

/-- C7 witness: the three parts evaluated at concrete inputs — an empty carrier
response, a concrete sync, and a row with the sentinel set. -/
theorem tracking_sentinel_spec_witness :
    extract_tracking none (some "") = "SEM-RASTREIO" ∧
    ((processOrder emptyStore "B1" pOrder (HttpResult.ok ⟨some "ME1", none, some ""⟩)
        (HttpResult.ok ()) 3).1 "B1").map OrderRecord.tracking_code =
      some (some "SEM-RASTREIO") ∧
    pendingSelect c7Rec = false :=
  ⟨tracking_sentinel_spec.1 none (some "") (by decide) (by decide),
    tracking_sentinel_spec.2.1 emptyStore "B1" pOrder ⟨some "ME1", none, some ""⟩ 3
      (by decide) (by decide) (by decide),
    tracking_sentinel_spec.2.2 c7Rec (Or.inr (by decide))⟩

/-! ## C8 — the delivery query -/

/-- One status text passes the code's delivered test exactly when it
case-insensitively contains one of the three delivered markers. -/
theorem isDeliveredStatus_iff (s : String) :
    isDeliveredStatus s = true ↔
      ∃ n ∈ (["delivered", "entregue", "finalizado"] : List String),
        strContains (strLower s) (strLower n) = true := by
  simp only [isDeliveredStatus]
  constructor
  · intro h
    simp only [Bool.or_eq_true] at h
    rcases h with ((h | h) | h) | h
    · exact ⟨"entregue", by simp,
        by rw [(by decide : strLower "entregue" = "entregue")]; exact h⟩
    · exact ⟨"delivered", by simp,
        by rw [(by decide : strLower "delivered" = "delivered")]; exact h⟩
    · exact ⟨"finalizado", by simp,
        by rw [(by decide : strLower "finalizado" = "finalizado")]; exact h⟩
    · have he : strLower s = "delivered" := by
        have := h
        rwa [beq_iff_eq] at this
      exact ⟨"delivered", by simp,
        by rw [he, (by decide : strLower "delivered" = "delivered")]; decide⟩
  · rintro ⟨n, hn, h⟩
    simp only [List.mem_cons, List.not_mem_nil, or_false] at hn
    simp only [Bool.or_eq_true]
    rcases hn with rfl | rfl | rfl
    · left; left; right
      rwa [(by decide : strLower "delivered" = "delivered")] at h
    · left; left; left
      rwa [(by decide : strLower "entregue" = "entregue")] at h
    · left; right
      rwa [(by decide : strLower "finalizado" = "finalizado")] at h

/-- C8: the delivery query never raises (it is a total function of the remote
outcome), returns false on every transport or protocol error, and on a parsed
response returns true exactly when some entry's status text, case-insensitively,
contains "delivered", "entregue" or "finalizado". -/
theorem delivery_query_spec :
    (∀ msg, melhorenvio_check_delivered (TrackOutcome.transportError msg) = false) ∧
    (∀ code, melhorenvio_check_delivered (TrackOutcome.httpError code) = false) ∧
    melhorenvio_check_delivered TrackOutcome.parseError = false ∧
    (∀ entries, melhorenvio_check_delivered (TrackOutcome.parsed entries) = true ↔
      ∃ e ∈ entries, ∃ n ∈ (["delivered", "entregue", "finalizado"] : List String),
        strContains (strLower (e.getD "")) (strLower n) = true) := by
  refine ⟨fun _ => rfl, fun _ => rfl, rfl, fun entries => ?_⟩
  simp only [melhorenvio_check_delivered, List.any_eq_true]
  constructor
  · rintro ⟨e, he, h⟩
    exact ⟨e, he, (isDeliveredStatus_iff _).1 h⟩
  · rintro ⟨e, he, h⟩
    exact ⟨e, he, (isDeliveredStatus_iff _).2 h⟩

/-! ## C6 — the shipment request builder -/

/-- C6: an order with customer and address blocks but no line items gets exactly
one synthesized default item, and its built request has a single volume of
weight 0.3 and dimensions 20 × 15 × 10; in general the built volume weight is
the summed item weight × quantity floored at 0.3. -/
theorem builder_default_and_weight_spec :
    (∀ p : Pedido, p.customer.isSome = true →
      (p.address.orElse (fun _ => p.shipping_address)).isSome = true → p.items = [] →
      effective_items p = [defaultItem] ∧
      ∃ pay, build_payload p = Except.ok pay ∧ pay.vol_weight = 3 / 10 ∧
        pay.vol_length = 20 ∧ pay.vol_width = 15 ∧ pay.vol_height = 10) ∧
    (∀ (p : Pedido) (pay : MEPayload), build_payload p = Except.ok pay →
      pay.vol_weight = max (((effective_items p).map item_weight).sum) (3 / 10)) := by
  constructor
  · intro p hc ha hi
    obtain ⟨addr, haddr⟩ := Option.isSome_iff_exists.mp ha
    obtain ⟨cust, hcust⟩ := Option.isSome_iff_exists.mp hc
    have heff : effective_items p = [defaultItem] := by
      simp [effective_items, hi]
    refine ⟨heff, ?_⟩
    unfold build_payload
    rw [haddr, hcust]
    refine ⟨_, rfl, ?_, ?_, ?_, ?_⟩
    · show total_weight p = 3 / 10
      simp [total_weight, heff, item_weight, defaultItem]
    · show pyTrunc (max_length p) = 20
      simp only [max_length, heff, defaultItem, List.map]
      norm_num [pyMax, pyTrunc]
    · show pyTrunc (max_width p) = 15
      simp only [max_width, heff, defaultItem, List.map]
      norm_num [pyMax, pyTrunc]
    · show pyTrunc (max_height p) = 10
      simp only [max_height, heff, defaultItem, List.map]
      norm_num [pyMax, pyTrunc]
  · intro p pay h
    unfold build_payload at h
    split at h
    · exact absurd h (by simp)
    · split at h
      · exact absurd h (by simp)
      · injection h with h2
        subst h2
        rfl

/-- The witness order: `pOrder` with its line items removed. -/
def pNoItems : Pedido :=
  { pOrder with items := [] }

/-- C6 witness: the default-item branch evaluated on a concrete order with no
line items. -/
theorem builder_default_and_weight_spec_witness :
    effective_items pNoItems = [defaultItem] ∧
    ∃ pay, build_payload pNoItems = Except.ok pay ∧ pay.vol_weight = 3 / 10 ∧
      pay.vol_length = 20 ∧ pay.vol_width = 15 ∧ pay.vol_height = 10 :=
  builder_default_and_weight_spec.1 pNoItems (by decide) (by decide) (by decide)

/-! ## C3 — the retry policy -/

/-- If some attempt `k` inside the window succeeds and all earlier attempts fail,
`retryAux` returns that result after exactly `k + 1 - attempt` invocations. -/
theorem retryAux_ok (f : Nat → Except String α) (delay maxA : Nat) (a : α) :
    ∀ rem attempt k, attempt ≤ k → k < attempt + rem → k ≤ maxA →
    (∀ i, attempt ≤ i → i < k → ∃ e, f i = Except.error e) → f k = Except.ok a →
    (retryAux f delay maxA attempt rem).2 = Except.ok a ∧
    ((retryAux f delay maxA attempt rem).1.count RetryEvent.invoke) = k + 1 - attempt := by
  intro rem
  induction rem with
  | zero => intro attempt k h1 h2 _ _ _; omega
  | succ n ih =>
    intro attempt k h1 h2 h3 herr hok
    by_cases hak : attempt = k
    · subst hak
      simp [retryAux, hok]
    · have hlt : attempt < k := lt_of_le_of_ne h1 hak
      obtain ⟨e, he⟩ := herr attempt le_rfl hlt
      have hamax : attempt < maxA := lt_of_lt_of_le hlt h3
      have hih := ih (attempt + 1) k hlt (by omega) h3
        (fun i hi1 hi2 => herr i (by omega) hi2) hok
      simp only [retryAux, he, if_pos hamax]
      refine ⟨hih.1, ?_⟩
      simp only [List.count_cons, hih.2]
      simp
      omega

/-- If every attempt in the window fails, `retryAux` ends with the final
attempt's error, sleeps between consecutive attempts, and logs the exhausted
attempt count. -/
theorem retryAux_err (f : Nat → Except String α) (delay maxA : Nat) (g : Nat → String) :
    ∀ rem attempt, attempt + rem = maxA + 1 → 1 ≤ attempt → attempt ≤ maxA →
    (∀ i, attempt ≤ i → i ≤ maxA → f i = Except.error (g i)) →
    (retryAux f delay maxA attempt rem).2 = Except.error (g maxA) ∧
    ((retryAux f delay maxA attempt rem).1.count RetryEvent.invoke) = maxA + 1 - attempt ∧
    ((retryAux f delay maxA attempt rem).1.count (RetryEvent.sleepDelay delay)) =
      maxA - attempt ∧
    RetryEvent.errorLog maxA ∈ (retryAux f delay maxA attempt rem).1 := by
  intro rem
  induction rem with
  | zero => intro attempt h1 h2 h3 _; omega
  | succ n ih =>
    intro attempt h1 h2 h3 herr
    have hfa : f attempt = Except.error (g attempt) := herr attempt le_rfl h3
    by_cases hmax : attempt < maxA
    · have hih := ih (attempt + 1) (by omega) (by omega) (by omega)
        (fun i hi1 hi2 => herr i (by omega) hi2)
      simp only [retryAux, hfa, if_pos hmax]
      refine ⟨hih.1, ?_, ?_, ?_⟩
      · simp only [List.count_cons, hih.2.1]
        simp
        omega
      · simp only [List.count_cons, hih.2.2.1]
        simp
        omega
      · simp only [List.mem_cons]
        exact Or.inr (Or.inr (Or.inr hih.2.2.2))
    · have heq : attempt = maxA := by omega
      subst heq
      simp [retryAux, hfa, List.count_cons]

/-- C3: for `max_attempts ≥ 1`, if the wrapped call succeeds on attempt
`k ≤ max_attempts` (all earlier attempts failing), the wrapper returns that
result after exactly `k` invocations; if every attempt fails, the wrapper makes
exactly `max_attempts` invocations with the fixed delay slept between
consecutive attempts (`max_attempts - 1` sleeps), propagates the final
attempt's error verbatim, and emits the error log carrying the number of
attempts exhausted. -/
theorem retry_policy_spec (maxA delay : Nat) (f : Nat → Except String α)
    (hmax : 1 ≤ maxA) :
    (∀ k a, 1 ≤ k → k ≤ maxA →
      (∀ i, 1 ≤ i → i < k → ∃ e, f i = Except.error e) → f k = Except.ok a →
      (retry_on_failure maxA delay f).2 = Except.ok a ∧
      ((retry_on_failure maxA delay f).1.count RetryEvent.invoke) = k) ∧
    (∀ g : Nat → String, (∀ i, 1 ≤ i → i ≤ maxA → f i = Except.error (g i)) →
      (retry_on_failure maxA delay f).2 = Except.error (g maxA) ∧
      ((retry_on_failure maxA delay f).1.count RetryEvent.invoke) = maxA ∧
      ((retry_on_failure maxA delay f).1.count (RetryEvent.sleepDelay delay)) = maxA - 1 ∧
      RetryEvent.errorLog maxA ∈ (retry_on_failure maxA delay f).1) := by
  constructor
  · intro k a hk1 hk2 herr hok
    have h := retryAux_ok f delay maxA a maxA 1 k hk1 (by omega) hk2 herr hok
    exact ⟨h.1, by rw [retry_on_failure, h.2]; omega⟩
  · intro g herr
    have h := retryAux_err f delay maxA g maxA 1 (by omega) le_rfl hmax herr
    exact ⟨h.1, by rw [retry_on_failure, h.2.1]; omega, by rw [retry_on_failure, h.2.2.1],
      h.2.2.2⟩

/-- C3 witness: three attempts with the first failing and the second succeeding
returns the success after exactly 2 invocations. -/
theorem retry_policy_spec_witness :
    (retry_on_failure 3 2 (fun i => if i = 2 then Except.ok 42 else Except.error "boom")).2 =
      Except.ok 42 ∧
    ((retry_on_failure 3 2
      (fun i => if i = 2 then Except.ok 42 else Except.error "boom")).1.count
        RetryEvent.invoke) = 2 :=
  (retry_policy_spec 3 2 (fun i => if i = 2 then Except.ok 42 else Except.error "boom")
      (by decide)).1 2 42 (by decide) (by decide)
    (by
      intro i h1 h2
      have hi : i = 1 := by omega
      subst hi
      exact ⟨"boom", rfl⟩)
    (by rfl)

/-! ## C5 — CPF validation -/

/-- Check-digit weighted sum as the spec words it: weights `n+1 .. 2` over the
first `n` digits (`n = 9` for the first verifier digit, `n = 10` for the
second). -/
def spec_cpf_sum (ds : List Nat) (n : Nat) : Nat :=
  ((List.range n).map (fun i => ds.getD i 0 * (n + 1 - i))).sum

/-- The spec's check digit: `11 - (sum mod 11)`, with a computed value ≥ 10
mapped to 0. -/
def spec_check_digit (ds : List Nat) (n : Nat) : Nat :=
  checkDigitFrom (spec_cpf_sum ds n)

/-- The claim's characterization of a valid CPF: after cleaning, exactly 11
digits, not all one repeated digit, and both check digits match the
modulus-11 algorithm. -/
def spec_cpf_valid (s : String) : Prop :=
  (cpfDigits s).length = 11 ∧
  (¬ ∀ i, i < 11 → (cpfDigits s).getD i 0 = (cpfDigits s).getD 0 0) ∧
  (cpfDigits s).getD 9 0 = spec_check_digit (cpfDigits s) 9 ∧
  (cpfDigits s).getD 10 0 = spec_check_digit (cpfDigits s) 10

/-- `validateDigits` rejects every list that does not have exactly 11 digits. -/
theorem validateDigits_false_of_length :
    ∀ ds : List Nat, ds.length ≠ 11 → validateDigits ds = false
  | [], _ => rfl
  | [_], _ => rfl
  | [_, _], _ => rfl
  | [_, _, _], _ => rfl
  | [_, _, _, _], _ => rfl
  | [_, _, _, _, _], _ => rfl
  | [_, _, _, _, _, _], _ => rfl
  | [_, _, _, _, _, _, _], _ => rfl
  | [_, _, _, _, _, _, _, _], _ => rfl
  | [_, _, _, _, _, _, _, _, _], _ => rfl
  | [_, _, _, _, _, _, _, _, _, _], _ => rfl
  | [_, _, _, _, _, _, _, _, _, _, _], h => absurd (by simp) h
  | _ :: _ :: _ :: _ :: _ :: _ :: _ :: _ :: _ :: _ :: _ :: _ :: _, _ => rfl

/-- Decomposition of an 11-element list into its entries. -/
theorem exists_eleven (ds : List Nat) (h : ds.length = 11) :
    ∃ d0 d1 d2 d3 d4 d5 d6 d7 d8 d9 d10,
      ds = [d0, d1, d2, d3, d4, d5, d6, d7, d8, d9, d10] := by
  rcases ds with _ | ⟨d0, ds⟩
  · simp only [List.length_nil] at h
    omega
  rcases ds with _ | ⟨d1, ds⟩
  · simp only [List.length_cons, List.length_nil] at h
    omega
  rcases ds with _ | ⟨d2, ds⟩
  · simp only [List.length_cons, List.length_nil] at h
    omega
  rcases ds with _ | ⟨d3, ds⟩
  · simp only [List.length_cons, List.length_nil] at h
    omega
  rcases ds with _ | ⟨d4, ds⟩
  · simp only [List.length_cons, List.length_nil] at h
    omega
  rcases ds with _ | ⟨d5, ds⟩
  · simp only [List.length_cons, List.length_nil] at h
    omega
  rcases ds with _ | ⟨d6, ds⟩
  · simp only [List.length_cons, List.length_nil] at h
    omega
  rcases ds with _ | ⟨d7, ds⟩
  · simp only [List.length_cons, List.length_nil] at h
    omega
  rcases ds with _ | ⟨d8, ds⟩
  · simp only [List.length_cons, List.length_nil] at h
    omega
  rcases ds with _ | ⟨d9, ds⟩
  · simp only [List.length_cons, List.length_nil] at h
    omega
  rcases ds with _ | ⟨d10, ds⟩
  · simp only [List.length_cons, List.length_nil] at h
    omega
  rcases ds with _ | ⟨d11, ds⟩
  · exact ⟨d0, d1, d2, d3, d4, d5, d6, d7, d8, d9, d10, rfl⟩
  · simp only [List.length_cons] at h
    omega

/-- The first verifier sum on an explicit 11-digit list. -/
theorem spec_sum9_eleven (d0 d1 d2 d3 d4 d5 d6 d7 d8 d9 d10 : Nat) :
    spec_cpf_sum [d0, d1, d2, d3, d4, d5, d6, d7, d8, d9, d10] 9 =
      d0 * 10 + d1 * 9 + d2 * 8 + d3 * 7 + d4 * 6 + d5 * 5 + d6 * 4 + d7 * 3 + d8 * 2 := by
  show d0 * 10 + (d1 * 9 + (d2 * 8 + (d3 * 7 + (d4 * 6 +
    (d5 * 5 + (d6 * 4 + (d7 * 3 + (d8 * 2 + 0)))))))) = _
  ring

/-- The second verifier sum on an explicit 11-digit list. -/
theorem spec_sum10_eleven (d0 d1 d2 d3 d4 d5 d6 d7 d8 d9 d10 : Nat) :
    spec_cpf_sum [d0, d1, d2, d3, d4, d5, d6, d7, d8, d9, d10] 10 =
      d0 * 11 + d1 * 10 + d2 * 9 + d3 * 8 + d4 * 7 + d5 * 6 + d6 * 5 + d7 * 4 +
        d8 * 3 + d9 * 2 := by
  show d0 * 11 + (d1 * 10 + (d2 * 9 + (d3 * 8 + (d4 * 7 +
    (d5 * 6 + (d6 * 5 + (d7 * 4 + (d8 * 3 + (d9 * 2 + 0))))))))) = _
  ring

/-- On an explicit 11-digit list the code's validation agrees with the spec's
characterization (no-repetition plus both check-digit equations). -/
theorem validateDigits_eleven_iff (d0 d1 d2 d3 d4 d5 d6 d7 d8 d9 d10 : Nat) :
    validateDigits [d0, d1, d2, d3, d4, d5, d6, d7, d8, d9, d10] = true ↔
      ((¬ ∀ i, i < 11 → [d0, d1, d2, d3, d4, d5, d6, d7, d8, d9, d10].getD i 0 =
          [d0, d1, d2, d3, d4, d5, d6, d7, d8, d9, d10].getD 0 0) ∧
        d9 = spec_check_digit [d0, d1, d2, d3, d4, d5, d6, d7, d8, d9, d10] 9 ∧
        d10 = spec_check_digit [d0, d1, d2, d3, d4, d5, d6, d7, d8, d9, d10] 10) := by
  have hall : allSameDigits [d0, d1, d2, d3, d4, d5, d6, d7, d8, d9, d10] = true ↔
      (∀ i, i < 11 → [d0, d1, d2, d3, d4, d5, d6, d7, d8, d9, d10].getD i 0 =
        [d0, d1, d2, d3, d4, d5, d6, d7, d8, d9, d10].getD 0 0) := by
    constructor
    · intro h i hi
      simp only [allSameDigits, List.all_cons, List.all_nil, Bool.and_eq_true,
        beq_iff_eq, and_true] at h
      obtain ⟨h1, h2, h3, h4, h5, h6, h7, h8, h9, h10⟩ := h
      interval_cases i
      · rfl
      · exact h1
      · exact h2
      · exact h3
      · exact h4
      · exact h5
      · exact h6
      · exact h7
      · exact h8
      · exact h9
      · exact h10
    · intro h
      simp only [allSameDigits, List.all_cons, List.all_nil, Bool.and_eq_true,
        beq_iff_eq, and_true]
      exact ⟨h 1 (by omega), h 2 (by omega), h 3 (by omega), h 4 (by omega), h 5 (by omega),
        h 6 (by omega), h 7 (by omega), h 8 (by omega), h 9 (by omega), h 10 (by omega)⟩
  have hcd9 : spec_check_digit [d0, d1, d2, d3, d4, d5, d6, d7, d8, d9, d10] 9 =
      checkDigitFrom (d0 * 10 + d1 * 9 + d2 * 8 + d3 * 7 + d4 * 6 + d5 * 5 + d6 * 4 +
        d7 * 3 + d8 * 2) := by
    simp only [spec_check_digit, spec_sum9_eleven]
  have hcd10 : spec_check_digit [d0, d1, d2, d3, d4, d5, d6, d7, d8, d9, d10] 10 =
      checkDigitFrom (d0 * 11 + d1 * 10 + d2 * 9 + d3 * 8 + d4 * 7 + d5 * 6 + d6 * 5 +
        d7 * 4 + d8 * 3 + d9 * 2) := by
    simp only [spec_check_digit, spec_sum10_eleven]
  simp only [validateDigits]
  constructor
  · intro h
    split_ifs at h with ha hd
    rw [decide_eq_true_eq] at h
    refine ⟨fun hc => ha (hall.mpr hc), ?_, ?_⟩
    · rw [hcd9]
      exact (not_ne_iff.mp hd).symm
    · rw [hcd10]
      exact h.symm
  · rintro ⟨h1, h2, h3⟩
    rw [if_neg fun hc => h1 (hall.mp hc),
      if_neg (not_ne_iff.mpr ((h2.trans hcd9).symm)), decide_eq_true_eq]
    exact (h3.trans hcd10).symm

/-- Changing either check digit of a digit list that passes validation to any
different value makes validation fail. -/
theorem validateDigits_perturb (ds : List Nat) (hval : validateDigits ds = true) (v : Nat) :
    (v ≠ ds.getD 9 0 → validateDigits (ds.set 9 v) = false) ∧
    (v ≠ ds.getD 10 0 → validateDigits (ds.set 10 v) = false) := by
  have hlen : ds.length = 11 := by
    by_contra hne
    rw [validateDigits_false_of_length ds hne] at hval
    exact absurd hval (by simp)
  obtain ⟨d0, d1, d2, d3, d4, d5, d6, d7, d8, d9, d10, rfl⟩ := exists_eleven ds hlen
  simp only [validateDigits] at hval
  split_ifs at hval with ha hd
  rw [decide_eq_true_eq] at hval
  have hd9 : checkDigitFrom (d0 * 10 + d1 * 9 + d2 * 8 + d3 * 7 + d4 * 6 + d5 * 5 +
      d6 * 4 + d7 * 3 + d8 * 2) = d9 := not_ne_iff.mp hd
  constructor
  · intro hv
    show validateDigits [d0, d1, d2, d3, d4, d5, d6, d7, d8, v, d10] = false
    simp only [validateDigits]
    split_ifs with ha2 hd2
    · rfl
    · rfl
    · exact absurd ((not_ne_iff.mp hd2).symm.trans hd9) hv
  · intro hv
    show validateDigits [d0, d1, d2, d3, d4, d5, d6, d7, d8, d9, v] = false
    simp only [validateDigits]
    split_ifs with ha2
    · rfl
    · rw [decide_eq_false_iff_not]
      intro hc
      exact hv (hc.symm.trans hval)

/-- C5: CPF validation returns true exactly for strings whose cleaned digit
string has 11 digits, is not one repeated digit, and whose two check digits
match the modulus-11 algorithm; consequently changing either of the last two
digits of a valid CPF to any different digit makes validation return false. -/
theorem cpf_validation_spec :
    (∀ s : String, validate_cpf s = true ↔ spec_cpf_valid s) ∧
    (∀ s : String, validate_cpf s = true → ∀ j, j = 9 ∨ j = 10 → ∀ c : Char,
      c.isDigit = true → digitVal c ≠ (cpfDigits s).getD j 0 →
      validate_cpf (String.mk ((clean_document s).data.set j c)) = false) := by
  constructor
  · intro s
    constructor
    · intro h
      have hlen : (cpfDigits s).length = 11 := by
        by_contra hne
        rw [validate_cpf, validateDigits_false_of_length _ hne] at h
        exact absurd h (by simp)
      obtain ⟨d0, d1, d2, d3, d4, d5, d6, d7, d8, d9, d10, hds⟩ := exists_eleven _ hlen
      rw [validate_cpf, hds] at h
      unfold spec_cpf_valid
      rw [hds]
      obtain ⟨h1, h2, h3⟩ := (validateDigits_eleven_iff d0 d1 d2 d3 d4 d5 d6 d7 d8 d9
        d10).mp h
      exact ⟨by simp, h1, h2, h3⟩
    · intro hsv
      unfold spec_cpf_valid at hsv
      obtain ⟨hlen, h1, h2, h3⟩ := hsv
      obtain ⟨d0, d1, d2, d3, d4, d5, d6, d7, d8, d9, d10, hds⟩ := exists_eleven _ hlen
      rw [hds] at h1 h2 h3
      rw [validate_cpf, hds]
      exact (validateDigits_eleven_iff d0 d1 d2 d3 d4 d5 d6 d7 d8 d9 d10).mpr ⟨h1, h2, h3⟩
  · intro s hval j hj c hcdig hcv
    have hdigs : ∀ x ∈ (clean_document s).data, x.isDigit = true := by
      intro x hx
      exact List.of_mem_filter hx
    have hset : ∀ x ∈ (clean_document s).data.set j c, x.isDigit = true := by
      intro x hx
      rcases List.mem_or_eq_of_mem_set hx with h' | rfl
      · exact hdigs x h'
      · exact hcdig
    have hkey : cpfDigits (String.mk ((clean_document s).data.set j c)) =
        (cpfDigits s).set j (digitVal c) := by
      show (((clean_document s).data.set j c).filter Char.isDigit).map digitVal =
        ((clean_document s).data.map digitVal).set j (digitVal c)
      rw [List.filter_eq_self.mpr hset, List.map_set]
    rw [validate_cpf, hkey]
    rcases hj with rfl | rfl
    · exact (validateDigits_perturb (cpfDigits s) hval (digitVal c)).1 hcv
    · exact (validateDigits_perturb (cpfDigits s) hval (digitVal c)).2 hcv

/-- C5 witness: the test CPF from main.py's test payload satisfies the spec
characterization, and perturbing its first check digit invalidates it. -/
theorem cpf_validation_spec_witness :
    spec_cpf_valid "12345678909" ∧
    validate_cpf (String.mk ((clean_document "12345678909").data.set 9 '5')) = false :=
  ⟨(cpf_validation_spec.1 "12345678909").mp (by decide),
    cpf_validation_spec.2 "12345678909" (by decide) 9 (Or.inl rfl) '5' (by decide)
      (by decide)⟩

/-! ## C9 — the delivered_at invariant -/

/-- A state reached by a race between a duplicate webhook delivery and the
reconciliation worker: sync `pOrder` (guard, then shipped write), let a worker
check raise (resetting the row to `created` while keeping its tracking code),
let a duplicate invoiced event pass the guard, and let the worker confirm
delivery before the duplicate handler performs its `shipped` write. -/
def c9DeliveredState : SysState :=
  stepSys (stepSys (stepSys (stepSys (stepSys initState
    (SysEvent.webhookGuard pOrder 0))
    (SysEvent.webhookWrite "B1" (Except.ok ("ME1", "TR1")) 1))
    (SysEvent.workerCheck "B1" (some "ME1") (some "TR1") (CheckOutcome.raised "timeout") 2))
    (SysEvent.webhookGuard pOrder 3))
    (SysEvent.workerCheck "B1" (some "ME1") (some "TR1") CheckOutcome.delivered 4)

/-- The delivered row held by `c9DeliveredState`, with the duplicate handler
still in flight. -/
def c9Rec : OrderRecord :=
  { me_order_id := some "ME1", tracking_code := some "TR1", status := "delivered",
    retry_count := 1, last_error := none, delivered_at := some 4, updated_at := 4 }

/-- `c9DeliveredState` after the racing duplicate handler lands its `shipped`
write: the status leaves `delivered` while `delivered_at` keeps its value. -/
def c9RaceState : SysState :=
  stepSys c9DeliveredState (SysEvent.webhookWrite "B1" (Except.ok ("ME2", "TR2")) 5)

/-- C9 counterexample: in the reachable race state the order's `delivered_at`
is set while its status is `shipped`, refuting the claimed iff; and a further
worker delivery then overwrites `delivered_at` with a fresh timestamp,
refuting "once set is never overwritten". -/
theorem delivered_at_race_counterexample :
    (c9RaceState.store "B1").map OrderRecord.status = some "shipped" ∧
    (c9RaceState.store "B1").map OrderRecord.delivered_at = some (some 4) ∧
    (some "shipped" : Option String) ≠ some "delivered" ∧
    ((stepSys c9RaceState (SysEvent.workerCheck "B1" (some "ME1") (some "TR1")
        CheckOutcome.delivered 6)).store "B1").map OrderRecord.delivered_at =
      some (some 6) ∧
    (some (some 6) : Option (Option Nat)) ≠ some (some 4) := by
  decide

/-- `db_save` keeps the forward implication status = delivered → delivered_at
set, provided a `delivered` write never inserts a fresh row (the INSERT branch
leaves `delivered_at` NULL). -/
theorem db_save_delivered_implies (store : Store)
    (hinv : ∀ oid r, store oid = some r → r.status = "delivered" →
      r.delivered_at.isSome = true)
    (now : Nat) (oid : String) (me tr : Option String) (st : String)
    (err : Option String) (hfresh : store oid = none → st ≠ "delivered") :
    ∀ oid' r', (db_save store now oid me tr st err) oid' = some r' →
      r'.status = "delivered" → r'.delivered_at.isSome = true := by
  intro oid' r' hr' hst
  by_cases heq : oid' = oid
  · subst heq
    cases hrec : store oid' with
    | none =>
      rw [db_save_get_fresh store now oid' me tr st err hrec] at hr'
      injection hr' with h2
      subst h2
      exact absurd hst (hfresh hrec)
    | some r =>
      rw [db_save_get_existing store now oid' me tr st err r hrec] at hr'
      injection hr' with h2
      subst h2
      have hst' : st = "delivered" := hst
      show (if st = "delivered" then some now else r.delivered_at).isSome = true
      rw [if_pos hst']
      rfl
  · rw [db_save_get_other store now oid me tr st err oid' heq] at hr'
    exact hinv oid' r' hr' hst

/-- No `db_save` ever clears a set `delivered_at`: the update branch either
refreshes it (a `delivered` write) or keeps the old value, and the row is never
removed. -/
theorem db_save_keeps_delivered_at (store : Store) (now : Nat) (oid : String)
    (me tr : Option String) (st : String) (err : Option String) (oid' : String)
    (r : OrderRecord) (hr : store oid' = some r) (ht : r.delivered_at.isSome = true) :
    ∃ r', (db_save store now oid me tr st err) oid' = some r' ∧
      r'.delivered_at.isSome = true := by
  by_cases heq : oid' = oid
  · subst heq
    refine ⟨_, db_save_get_existing store now oid' me tr st err r hr, ?_⟩
    show (if st = "delivered" then some now else r.delivered_at).isSome = true
    by_cases hst : st = "delivered"
    · rw [if_pos hst]
      rfl
    · rw [if_neg hst]
      exact ht
  · exact ⟨r, by rw [db_save_get_other store now oid me tr st err oid' heq]; exact hr, ht⟩

/-- In every reachable state, a `delivered` row has `delivered_at` set. -/
theorem deliveredInv_reachable (s : SysState) (h : ReachableSys s) :
    ∀ oid r, s.store oid = some r → r.status = "delivered" →
      r.delivered_at.isSome = true := by
  induction h with
  | init =>
    intro oid r hr
    exact absurd hr (by simp [initState, emptyStore])
  | @step s0 e hprev ih =>
    cases e with
    | webhookGuard p now =>
      cases hg : guardPasses s0.store p with
      | true => simpa [stepSys, hg] using ih
      | false => simpa [stepSys, hg] using ih
    | webhookWrite oid res now =>
      by_cases hs : oid ∈ s0.sessions
      · cases res with
        | ok pr =>
          obtain ⟨me, tr⟩ := pr
          have hstep := db_save_delivered_implies s0.store ih now oid (some me) (some tr)
            "shipped" none (fun _ => by decide)
          simpa [stepSys, hs] using hstep
        | error msg =>
          have hstep := db_save_delivered_implies s0.store ih now oid none none
            "error" (some msg) (fun _ => by decide)
          simpa [stepSys, hs] using hstep
      · simpa [stepSys, hs] using ih
    | workerCheck oid me tr out now =>
      cases hrec : s0.store oid with
      | none => simpa [stepSys, hrec] using ih
      | some r0 =>
        cases out with
        | delivered =>
          by_cases hme : pyTruthy me = true
          · have hfresh : s0.store oid = none → ("delivered" : String) ≠ "delivered" := by
              intro hn
              rw [hn] at hrec
              exact Option.noConfusion hrec
            have hstep := db_save_delivered_implies s0.store ih now oid me tr
              "delivered" none hfresh
            simpa [stepSys, hrec, workerScanStep, hme] using hstep
          · simpa [stepSys, hrec, workerScanStep, hme] using ih
        | notDelivered => simpa [stepSys, hrec, workerScanStep] using ih
        | raised msg =>
          have hstep := db_save_delivered_implies s0.store ih now oid me tr
            "created" (some msg) (fun _ => by decide)
          simpa [stepSys, hrec, workerScanStep] using hstep

/-- A set `delivered_at` survives every event: each possible write keeps the
row and keeps `delivered_at` non-NULL (though a repeated `delivered` write may
refresh its timestamp). -/
theorem delivered_at_kept (s : SysState) (e : SysEvent) (oid : String) (r : OrderRecord)
    (hr : s.store oid = some r) (ht : r.delivered_at.isSome = true) :
    ∃ r', (stepSys s e).store oid = some r' ∧ r'.delivered_at.isSome = true := by
  cases e with
  | webhookGuard p now =>
    cases hg : guardPasses s.store p with
    | true => exact ⟨r, by simp [stepSys, hg, hr], ht⟩
    | false => exact ⟨r, by simp [stepSys, hg, hr], ht⟩
  | webhookWrite oid' res now =>
    by_cases hs : oid' ∈ s.sessions
    · cases res with
      | ok pr =>
        obtain ⟨me, tr⟩ := pr
        have hstep := db_save_keeps_delivered_at s.store now oid' (some me) (some tr)
          "shipped" none oid r hr ht
        simpa [stepSys, hs] using hstep
      | error msg =>
        have hstep := db_save_keeps_delivered_at s.store now oid' none none
          "error" (some msg) oid r hr ht
        simpa [stepSys, hs] using hstep
    · exact ⟨r, by simp [stepSys, hs, hr], ht⟩
  | workerCheck oid' me tr out now =>
    cases hrec : s.store oid' with
    | none => exact ⟨r, by simp [stepSys, hrec, hr], ht⟩
    | some r0 =>
      cases out with
      | delivered =>
        by_cases hme : pyTruthy me = true
        · have hstep := db_save_keeps_delivered_at s.store now oid' me tr
            "delivered" none oid r hr ht
          simpa [stepSys, hrec, workerScanStep, hme] using hstep
        · exact ⟨r, by simp [stepSys, hrec, workerScanStep, hme, hr], ht⟩
      | notDelivered => exact ⟨r, by simp [stepSys, hrec, workerScanStep, hr], ht⟩
      | raised msg =>
        have hstep := db_save_keeps_delivered_at s.store now oid' me tr
          "created" (some msg) oid r hr ht
        simpa [stepSys, hrec, workerScanStep] using hstep

/-- C9 (amended): in every reachable state of the interleaved system, an
order whose status is `delivered` has `delivered_at` set, and once
`delivered_at` is set it remains set across every further event.  The converse
direction of the original claim and the immutability of the stored timestamp
fail under the guard/write race exhibited by the counterexample. -/
theorem delivered_at_invariant (s : SysState) (h : ReachableSys s) :
    (∀ oid r, s.store oid = some r → r.status = "delivered" →
      r.delivered_at.isSome = true) ∧
    (∀ (e : SysEvent) (oid : String) (r : OrderRecord), s.store oid = some r →
      r.delivered_at.isSome = true →
      ∃ r', (stepSys s e).store oid = some r' ∧ r'.delivered_at.isSome = true) :=
  ⟨deliveredInv_reachable s h,
    fun e oid r hr ht => delivered_at_kept s e oid r hr ht⟩

/-- The race prefix is reachable. -/
theorem c9DeliveredState_reachable : ReachableSys c9DeliveredState :=
  ReachableSys.step _ (ReachableSys.step _ (ReachableSys.step _ (ReachableSys.step _
    (ReachableSys.step _ ReachableSys.init))))

/-- C9 witness: the amended invariant evaluated on the concrete reachable state
holding a delivered order, stepped by the racing handler write. -/
theorem delivered_at_invariant_witness :
    c9Rec.delivered_at.isSome = true ∧
    ∃ r', (stepSys c9DeliveredState
        (SysEvent.webhookWrite "B1" (Except.ok ("ME2", "TR2")) 5)).store "B1" = some r' ∧
      r'.delivered_at.isSome = true :=
  ⟨(delivered_at_invariant c9DeliveredState c9DeliveredState_reachable).1 "B1" c9Rec
      (by decide) (by decide),
    (delivered_at_invariant c9DeliveredState c9DeliveredState_reachable).2
      (SysEvent.webhookWrite "B1" (Except.ok ("ME2", "TR2")) 5) "B1" c9Rec (by decide)
      (by decide)⟩

end MEBagy
